import Mathlib

/-!
Verification development for a role-based academic administration backend.
The definitions below are a shallow embedding of the JavaScript source:
the mongoose models (User, Student, Batch, Course, Assignment, Attendance,
Report) become Lean structures over an explicit in-memory store, and each
route handler relevant to the claims becomes a pure function from the
request data and the store to an outcome together with the updated store.
Identifiers are modelled as natural numbers, dates as integer millisecond
timestamps, and JavaScript floating point results that can be NaN or
Infinity as Option values (none standing for a non-finite result).
-/

/-- Roles of the system, from the User schema enum. -/
inductive Role where
  | student
  | trainer
  | faculty
  | admin
  | superadmin
deriving DecidableEq, Repr

/-- Outcome of a route handler, abstracting the HTTP status classes the
handlers produce: ok (2xx), badRequest (400), forbidden (403),
notFound (404), serverError (500). -/
inductive Outcome where
  | ok
  | badRequest
  | forbidden
  | notFound
  | serverError
deriving DecidableEq, Repr

/-- User document: the fields of the User model used by the embedded
routes. rollNumber stands for the embedded studentInfo.rollNumber. -/
structure UserDoc where
  id : Nat
  username : String := ""
  role : Role
  rollNumber : Option String := none
  isActive : Bool := true
deriving DecidableEq, Repr

/-- Student profile document (the separate Student collection). -/
structure StudentDoc where
  id : Nat
  user : Nat
  rollNumber : String := ""
  assignedFaculty : Option Nat := none
deriving DecidableEq, Repr

/-- Batch document, from the batch schema in models. Dates are integer
millisecond timestamps as produced by Date subtraction in JavaScript. -/
structure BatchDoc where
  id : Nat
  trainers : List Nat := []
  students : List Nat := []
  createdBy : Nat := 0
  startDate : Int := 0
  endDate : Int := 0
deriving DecidableEq, Repr

/-- Entry of Course.students: a student reference with a progress value.
The Course model file is absent from the sources, so this shape follows
the uses in the trainer routes (students.student, students.progress). -/
structure CourseStudent where
  student : Nat
  progress : Rat := 0
deriving DecidableEq, Repr

/-- Course document, modelled from its uses in the routes: an instructor
reference, a batch reference and the list of enrolled students. The
instructors and faculty fields appear only in the admin delete handler
and are carried so that handler can be embedded verbatim. -/
structure CourseDoc where
  id : Nat
  batchId : Nat := 0
  instructor : Option Nat := none
  students : List CourseStudent := []
  instructors : List Nat := []
  faculty : Option Nat := none
deriving DecidableEq, Repr

/-- Submission sub-document of an Assignment. submittedAt is optional
because the dashboard aggregation filters on its existence. -/
structure SubmissionDoc where
  student : Nat
  submittedAt : Option Int := none
  grade : Option Rat := none
  feedback : String := ""
  status : String := "submitted"
deriving DecidableEq, Repr

/-- Assignment document with its embedded submissions. -/
structure AssignmentDoc where
  id : Nat
  course : Nat
  dueDate : Int := 0
  title : String := ""
  submissions : List SubmissionDoc := []
deriving DecidableEq, Repr

/-- Attendance status enum from the attendance schema. -/
inductive AttStatus where
  | present
  | absent
  | late
  | excused
deriving DecidableEq, Repr

/-- Attendance record: one per (student, course, date). -/
structure AttendanceDoc where
  id : Nat
  student : Nat
  course : Nat := 0
  date : Int := 0
  status : AttStatus := .present
deriving DecidableEq, Repr

/-- Report status enum from the report schema. -/
inductive RStatus where
  | draft
  | submitted
  | reviewed
  | approved
  | rejected
  | needsRevision
deriving DecidableEq, Repr

/-- Entry of the append-only statusHistory log of a report. -/
structure HistEntry where
  status : RStatus
  changedBy : Nat
  comment : String := ""
deriving DecidableEq, Repr

/-- Comment sub-document of a report. -/
structure CommentDoc where
  user : Nat
  text : String
deriving DecidableEq, Repr

/-- Report document. The student field references the Student collection. -/
structure ReportDoc where
  id : Nat
  student : Nat
  createdBy : Nat
  status : RStatus := .submitted
  statusHistory : List HistEntry := []
  comments : List CommentDoc := []
deriving DecidableEq, Repr

/-- The entity store: the collections the embedded routes touch. -/
structure Store where
  users : List UserDoc := []
  students : List StudentDoc := []
  batches : List BatchDoc := []
  courses : List CourseDoc := []
  assignments : List AssignmentDoc := []
  attendances : List AttendanceDoc := []
  reports : List ReportDoc := []
deriving DecidableEq, Repr

/-- Removal of the first element satisfying a predicate, the embedding of
deleteOne and findOneAndDelete (which remove at most one document). -/
def eraseFirstP (p : α → Bool) : List α → List α
  | [] => []
  | x :: xs => if p x then xs else x :: eraseFirstP p xs

/-- Milliseconds in one week, the divisor 7 * 24 * 60 * 60 * 1000 used by
both durationWeeks computations in the source. -/
def weekMs : Rat := 604800000

/-- The durationWeeks virtual of the batch schema:
Math.ceil(Math.abs(endDate - startDate) / weekMs). -/
def durationWeeks (b : BatchDoc) : Int :=
  Int.ceil ((((b.endDate - b.startDate).natAbs : Rat)) / weekMs)

/-- The durationWeeks field computed by the super-admin batches
aggregation: ceil((endDate - startDate) / weekMs), with no abs. This is
also literally the formula the specification states. -/
def durationWeeksAgg (b : BatchDoc) : Int :=
  Int.ceil (((b.endDate - b.startDate : Int) : Rat) / weekMs)

/-- The endDate validator of the batch schema: endDate > startDate. A
batch whose validator returns false fails validation and is not saved. -/
def endDateValid (b : BatchDoc) : Bool :=
  decide (b.startDate < b.endDate)

/-- Role condition of the user-listing filter: the handler starts from
role ne superadmin and overwrites the whole condition with an equality
whenever a role query parameter is supplied. -/
inductive RoleCond where
  | neSuperadmin
  | eqRole (r : Role)
deriving DecidableEq, Repr

/-- Filter construction of GET /api/admin/users: the default excludes
superadmins; a supplied role query replaces the condition entirely, and
a supplied isActive query adds an equality on the active flag. -/
structure UserFilter where
  roleCond : RoleCond
  activeCond : Option Bool
deriving DecidableEq, Repr

/-- Builds the listing filter exactly as the handler does (the search
clause, which only adds an OR of regex conditions, is not modelled). -/
def buildUserFilter (qrole : Option Role) (qactive : Option Bool) : UserFilter :=
  { roleCond := match qrole with
      | none => .neSuperadmin
      | some r => .eqRole r
    activeCond := qactive }

/-- Evaluation of the listing filter on one user document. -/
def userFilterMatches (f : UserFilter) (u : UserDoc) : Bool :=
  (match f.roleCond with
    | .neSuperadmin => !(u.role == .superadmin)
    | .eqRole r => u.role == r)
  && (match f.activeCond with
    | none => true
    | some b => u.isActive == b)

/-- The user-listing route: admin gate, then the filter applied to the
user collection (pagination is not modelled; the claim is about which
accounts the filter admits). -/
def getUsersRoute (caller : UserDoc) (qrole : Option Role) (qactive : Option Bool)
    (s : Store) : Outcome × List UserDoc :=
  if caller.role ≠ .admin then (.forbidden, [])
  else (.ok, s.users.filter (userFilterMatches (buildUserFilter qrole qactive)))

/-- The DELETE /api/admin/users/:userId handler from the admin user
management router. Only a superadmin may delete; self deletion and
deletion of a superadmin are rejected; the student branch pulls the user
from every Batch.students set and removes one Student profile; the
trainer branch pulls from Batch.trainers and from the Course field named
instructors; the faculty branch unsets the Course field named faculty;
finally the User document itself is removed. -/
def adminDeleteUser (p : UserDoc) (userId : Nat) (s : Store) : Outcome × Store :=
  if p.role ≠ .superadmin then (.forbidden, s)
  else if userId = p.id then (.badRequest, s)
  else
    match s.users.find? (fun x => x.id == userId) with
    | none => (.notFound, s)
    | some u =>
      if u.role = .superadmin then (.forbidden, s)
      else
        let s1 : Store :=
          match u.role with
          | .student =>
            { s with
              batches := s.batches.map
                (fun b => { b with students := b.students.filter (fun x => !(x == u.id)) }),
              students := eraseFirstP (fun st => st.user == u.id) s.students }
          | .trainer =>
            { s with
              batches := s.batches.map
                (fun b => { b with trainers := b.trainers.filter (fun x => !(x == u.id)) }),
              courses := s.courses.map
                (fun c => { c with instructors := c.instructors.filter (fun x => !(x == u.id)) }) }
          | .faculty =>
            { s with
              courses := s.courses.map
                (fun c => if c.faculty == some u.id then { c with faculty := none } else c) }
          | _ => s
        (.ok, { s1 with users := s1.users.filter (fun x => !(x.id == userId)) })

/-- The DELETE /api/student/:studentId handler from the student router.
Admin gate only (no self check); deletes the User, then one Student
profile matched by the embedded rollNumber when present, then every
Report whose student field equals the deleted id. -/
def studentDeleteRoute (p : UserDoc) (studentId : Nat) (s : Store) : Outcome × Store :=
  if p.role ≠ .admin then (.forbidden, s)
  else
    match s.users.find? (fun x => x.id == studentId) with
    | none => (.notFound, s)
    | some deletedUser =>
      let s1 : Store := { s with users := s.users.filter (fun x => !(x.id == studentId)) }
      let s2 : Store :=
        match deletedUser.rollNumber with
        | some rn => { s1 with students := eraseFirstP (fun st => st.rollNumber == rn) s1.students }
        | none => s1
      let s3 := { s2 with reports := s2.reports.filter (fun r => !(r.student == studentId)) }
      (.ok, s3)

/-- The DELETE /api/super-admin/users/:userId handler from the auth
router. Superadmin gate and self check; the student branch pulls the
user from Course.students and Assignment.submissions, deletes the
Attendance records and one Student profile, but does not touch
Batch.students; then the User document is removed. -/
def superAdminDeleteUser (p : UserDoc) (userId : Nat) (s : Store) : Outcome × Store :=
  if p.role ≠ .superadmin then (.forbidden, s)
  else if userId = p.id then (.badRequest, s)
  else
    match s.users.find? (fun x => x.id == userId) with
    | none => (.notFound, s)
    | some u =>
      let s1 : Store :=
        match u.role with
        | .admin =>
          { s with
            batches := s.batches.map
              (fun b => if b.createdBy == u.id then { b with createdBy := p.id } else b) }
        | .trainer =>
          { s with
            batches := s.batches.map
              (fun b => { b with trainers := b.trainers.filter (fun x => !(x == u.id)) }),
            courses := s.courses.map
              (fun c => if c.instructor == some u.id then { c with instructor := none } else c) }
        | .faculty =>
          { s with
            students := s.students.map
              (fun st => if st.assignedFaculty == some u.id then { st with assignedFaculty := none } else st) }
        | .student =>
          { s with
            courses := s.courses.map
              (fun c => { c with students := c.students.filter (fun cs => !(cs.student == u.id)) }),
            assignments := s.assignments.map
              (fun a => { a with submissions := a.submissions.filter (fun sb => !(sb.student == u.id)) }),
            attendances := s.attendances.filter (fun at0 => !(at0.student == u.id)),
            students := eraseFirstP (fun st => st.user == u.id) s.students }
        | .superadmin => s
      (.ok, { s1 with users := s1.users.filter (fun x => !(x.id == userId)) })

/-- A full scan for references to a user id left anywhere in the store:
Batch.students, Course.students, Assignment.submissions, Attendance
records and Student profiles. -/
def referencesUser (s : Store) (uid : Nat) : Bool :=
  s.batches.any (fun b => b.students.any (fun x => x == uid)) ||
  s.courses.any (fun c => c.students.any (fun cs => cs.student == uid)) ||
  s.assignments.any (fun a => a.submissions.any (fun sb => sb.student == uid)) ||
  s.attendances.any (fun at0 => at0.student == uid) ||
  s.students.any (fun st => st.user == uid)

/-- JavaScript toLowerCase, modelled characterwise. -/
def jsToLower (s : String) : String :=
  String.mk (s.data.map Char.toLower)

/-- JavaScript substring(0, n) and charAt via take, modelled on the
character list. -/
def jsSubstrTo (s : String) (n : Nat) : String :=
  String.mk (s.data.take n)

/-- Candidate username of one retry attempt of user provisioning:
lowercased first name, first character of the lowercased last name, the
random three-digit suffix, truncated to 20 characters. -/
def usernameCandidate (firstName lastName : String) (suffix : Nat) : String :=
  jsSubstrTo ((jsToLower firstName ++ jsSubstrTo (jsToLower lastName) 1) ++ toString suffix) 20

/-- The retry loop shared by the POST /api/admin/users handler and the
generateUniqueUsername helper: while no unique name was found and fewer
than 5 attempts were made, draw a suffix, build the candidate and check
it against the store. The suffix list is the stream of random draws. -/
def usernameLoop (existing : List String) (firstName lastName : String) :
    List Nat → Nat → Option String
  | [], _ => none
  | sfx :: rest, attempts =>
    if attempts < 5 then
      let c := usernameCandidate firstName lastName sfx
      if existing.contains c then usernameLoop existing firstName lastName rest (attempts + 1)
      else some c
    else none

/-- Username step of the POST /api/admin/users handler: when the loop
ends without a unique name the transaction is aborted and the handler
responds with status 500; there is no fallback in this handler. -/
def provisionUsername (existing : List String) (firstName lastName : String)
    (suffixes : List Nat) : Outcome × Option String :=
  match usernameLoop existing firstName lastName suffixes 0 with
  | none => (.serverError, none)
  | some c => (.ok, some c)

/-- The generateUniqueUsername helper defined at the bottom of the admin
user management router: same loop, but with a fallback to a
uuid-suffixed identifier when all attempts collide. The grep over the
sources shows no call site of this helper. -/
def generateUniqueUsername (existing : List String) (firstName lastName : String)
    (suffixes : List Nat) (uuid : String) : String :=
  match usernameLoop existing firstName lastName suffixes 0 with
  | none => "user_" ++ jsSubstrTo uuid 8
  | some c => c

/-- JavaScript division where a zero denominator produces a non-finite
value (NaN or Infinity), modelled as none. -/
def jsDiv (a b : Rat) : Option Rat :=
  if b = 0 then none else some (a / b)

/-- JavaScript Math.round: floor(x + 1/2). -/
def jsRound (q : Rat) : Int :=
  Int.floor (q + 1/2)

/-- Per-student row of the batch overview aggregation; only the mean
progress field matters to the summary computations. -/
structure StudentAgg where
  averageProgress : Rat
deriving DecidableEq, Repr

/-- Batch-level mean progress of the batch overview handler: guarded by
students.length > 0, with 0 for an empty batch. -/
def batchAverageProgress (students : List StudentAgg) : Rat :=
  if students.length > 0 then
    (students.map (fun st => st.averageProgress)).sum / (students.length : Rat)
  else 0

/-- Completion rate of the batch overview handler, verbatim: when
totalCourses > 0 it divides the count of students with mean progress at
least 100 by totalStudents and rounds; otherwise it is 0. The guard
tests totalCourses although the denominator is totalStudents. -/
def completionRate (students : List StudentAgg) (totalCourses : Nat) : Option Int :=
  if totalCourses > 0 then
    (jsDiv (((students.filter (fun st => 100 ≤ st.averageProgress)).length : Rat))
        ((students.length : Rat))).map (fun r => jsRound (r * 100))
  else some 0

/-- Attendance percentage of the faculty overview and department
performance handlers: present count over total with a total > 0 guard
that yields 0 on an empty summary. -/
def attendancePercentage (summary : List (AttStatus × Nat)) : Int :=
  let total := (summary.map (fun x => x.2)).sum
  let present := (((summary.find? (fun x => x.1 == AttStatus.present)).map (fun x => x.2)).getD 0)
  if 0 < total then jsRound (((present : Rat) / (total : Rat)) * 100) else 0

/-- Status-histogram percentage of the department performance handler:
Math.round((count / total) * 100) with a trailing or-zero that converts
the NaN of a zero total into 0. -/
def histPercentage (count total : Nat) : Int :=
  match jsDiv (count : Rat) (total : Rat) with
  | none => 0
  | some r => jsRound (r * 100)

/-- Per-student attendance percentage of the department performance
aggregation: a cond on attendanceCount equal to 0 yields 0. -/
def studentAttendancePercentage (presentCount attendanceCount : Nat) : Rat :=
  if attendanceCount == 0 then 0
  else ((presentCount : Rat) / (attendanceCount : Rat)) * 100

/-- Access outcome of GET /api/trainer/batches/:batchId/overview: role
gate, then findOne on id and trainer membership together; a missing or
out-of-scope batch both produce the 404 response. -/
def batchOverviewOutcome (u : UserDoc) (s : Store) (batchId : Nat) : Outcome :=
  if u.role ≠ .trainer then .forbidden
  else
    match s.batches.find? (fun b => b.id == batchId && b.trainers.contains u.id) with
    | none => .notFound
    | some _ => .ok

/-- Access outcome of GET /api/trainer/dashboard: role gate, and when a
batchId query is supplied a findOne on id and trainer membership whose
failure produces the 403 response. -/
def trainerDashboardOutcome (u : UserDoc) (s : Store) (batchId : Option Nat) : Outcome :=
  if u.role ≠ .trainer then .forbidden
  else
    match batchId with
    | none => .ok
    | some bid =>
      match s.batches.find? (fun b => b.id == bid && b.trainers.contains u.id) with
      | none => .forbidden
      | some _ => .ok

/-- Access outcome of GET /api/trainer/courses/:courseId/assignments:
role gate, then findOne on id and instructor together; a missing or
out-of-scope course both produce the 404 response. -/
def courseAssignmentsOutcome (u : UserDoc) (s : Store) (courseId : Nat) : Outcome :=
  if u.role ≠ .trainer then .forbidden
  else
    match s.courses.find? (fun c => c.id == courseId && c.instructor == some u.id) with
    | none => .notFound
    | some _ => .ok

/-- Lookup of a report by id. -/
def findReport (s : Store) (rid : Nat) : Option ReportDoc :=
  s.reports.find? (fun r => r.id == rid)

/-- Lookup of a Student profile document by its own id. -/
def findStudentDoc (s : Store) (sid : Nat) : Option StudentDoc :=
  s.students.find? (fun st => st.id == sid)

/-- Write-back of a saved report document into the store. -/
def replaceReport (s : Store) (rid : Nat) (r2 : ReportDoc) : Store :=
  { s with reports := s.reports.map (fun r => if r.id == rid then r2 else r) }

/-- Pre-save hook of the report schema: when the document is not new and
the status path was modified (its value changed), an entry with the new
status, attributed to createdBy, is pushed onto statusHistory. -/
def reportSaveHook (oldStatus : RStatus) (r : ReportDoc) : ReportDoc :=
  if r.status ≠ oldStatus then
    { r with statusHistory := r.statusHistory ++ [{ status := r.status, changedBy := r.createdBy }] }
  else r

/-- Statuses the PATCH /api/reports/:id/status body validator accepts;
draft is not among them. -/
def patchableStatuses : List RStatus :=
  [.submitted, .reviewed, .approved, .rejected, .needsRevision]

/-- The PATCH /api/reports/:id/status handler: body validation, report
lookup, authorization against the assigned faculty of the student (or
admin), then an unconditional status assignment — the handler compares
the requested status against no transition graph — followed by a push of
a history entry and the save (which runs the pre-save hook). -/
def patchStatusRoute (u : UserDoc) (s : Store) (rid : Nat) (body : RStatus)
    (comment : String) : Outcome × Store :=
  if !(patchableStatuses.contains body) then (.badRequest, s)
  else
    match findReport s rid with
    | none => (.notFound, s)
    | some report =>
      match findStudentDoc s report.student with
      | none => (.serverError, s)
      | some student =>
        let isAssignedTrainer := student.assignedFaculty == some u.id
        if !isAssignedTrainer && !(u.role == .admin) then (.forbidden, s)
        else
          let r1 := { report with
            status := body,
            statusHistory := report.statusHistory ++
              [{ status := body, changedBy := u.id, comment := comment }] }
          let r2 := reportSaveHook report.status r1
          (.ok, replaceReport s rid r2)

/-- The POST /api/reports/:id/comments handler: text validation, report
lookup, authorization against the assigned faculty of the student (or
admin), push of the comment, and the auto-advance of a submitted report
to reviewed when the commenter is not a student; then the save. -/
def addCommentRoute (u : UserDoc) (s : Store) (rid : Nat) (text : String) :
    Outcome × Store :=
  if text == "" then (.badRequest, s)
  else
    match findReport s rid with
    | none => (.notFound, s)
    | some report =>
      match findStudentDoc s report.student with
      | none => (.serverError, s)
      | some student =>
        if !(student.assignedFaculty == some u.id) && !(u.role == .admin) then (.forbidden, s)
        else
          let r1 := { report with comments := report.comments ++ [{ user := u.id, text := text }] }
          let r2 := if report.status == .submitted && !(u.role == .student) then
              { r1 with status := .reviewed }
            else r1
          let r3 := reportSaveHook report.status r2
          (.ok, replaceReport s rid r3)

/-- The report status graph as stated by the specification: draft to
submitted, submitted to reviewed, reviewed to approved or rejected or
needs revision, needs revision back to submitted. -/
def allowedTransition : RStatus → RStatus → Bool
  | .draft, .submitted => true
  | .submitted, .reviewed => true
  | .reviewed, .approved => true
  | .reviewed, .rejected => true
  | .reviewed, .needsRevision => true
  | .needsRevision, .submitted => true
  | _, _ => false

/-- Value tree of a stored document, as the aggregation match stage sees
it: an object id, an integer, a sub-document or an array. -/
inductive MVal where
  | oid : Nat → MVal
  | mint : Int → MVal
  | mdoc : List (String × MVal) → MVal
  | marr : List MVal → MVal

/-- Field access on a value: only sub-documents have fields. -/
def getField (v : MVal) (k : String) : Option MVal :=
  match v with
  | .mdoc fs => (fs.find? (fun f => f.1 == k)).map (fun f => f.2)
  | _ => none

/-- Equality of a value with an object id. -/
def MVal.eqOid : MVal → Nat → Bool
  | .oid m, n => m == n
  | _, _ => false

/-- Match of a value against an object id, with the array-membership
semantics of a query on an array-valued field. -/
def oidEqOrContains (v : MVal) (t : Nat) : Bool :=
  match v with
  | .marr xs => xs.any (fun x => MVal.eqOid x t)
  | _ => MVal.eqOid v t

/-- Match of the second path segment below an already-navigated value:
a sub-document is entered by field, an array is traversed elementwise,
and every other value (in particular a plain object id) matches no
sub-path at all. -/
def subfieldMatchesOid (v : MVal) (k2 : String) (t : Nat) : Bool :=
  match v with
  | .mdoc _ =>
    (match getField v k2 with
     | some w => oidEqOrContains w t
     | none => false)
  | .marr xs => xs.any (fun x =>
      match getField x k2 with
      | some w => oidEqOrContains w t
      | none => false)
  | _ => false

/-- Match of a dotted two-segment path (such as course.instructor)
against an object id on a document, following the query semantics of the
store. -/
def dottedPathMatchesOid (v : MVal) (k1 k2 : String) (t : Nat) : Bool :=
  match getField v k1 with
  | some w => subfieldMatchesOid w k2 t
  | none => false

/-- Shape of a stored submission sub-document, as the match stage sees
it. -/
def submissionToMVal (sb : SubmissionDoc) : MVal :=
  .mdoc ([("student", .oid sb.student)] ++
    (match sb.submittedAt with
     | some t => [("submittedAt", MVal.mint t)]
     | none => []))

/-- Shape of a stored assignment document before any lookup stage: the
course field holds a plain object id reference. -/
def assignmentToMVal (a : AssignmentDoc) : MVal :=
  .mdoc [("_id", .oid a.id), ("course", .oid a.course), ("dueDate", .mint a.dueDate),
    ("submissions", .marr (a.submissions.map submissionToMVal))]

/-- Row of the recent-submissions aggregation after the project stage. -/
structure SubmissionView where
  assignmentId : Nat
  courseId : Nat
  studentId : Nat
  submittedAt : Int
  status : String
deriving DecidableEq, Repr

/-- Stable descending insertion of a row by key. -/
def insertByKeyDesc (key : α → Int) (x : α) : List α → List α
  | [] => [x]
  | y :: ys => if key y < key x then x :: y :: ys else y :: insertByKeyDesc key x ys

/-- Stable descending sort by key, the embedding of the sort stage. -/
def sortByKeyDesc (key : α → Int) : List α → List α
  | [] => []
  | x :: xs => insertByKeyDesc key x (sortByKeyDesc key xs)

/-- Intermediate row of the recent-submissions pipeline: an assignment
joined with its course and unwound to one submission with a submission
timestamp. -/
structure SubRow where
  a : AssignmentDoc
  c : CourseDoc
  sb : SubmissionDoc
  ts : Int
deriving Repr

/-- The recent-submissions aggregation of GET /api/trainer/dashboard.
With a verified batch filter the first match stage keeps assignments of
the filtered course ids; without one it matches the dotted path
course.instructor against the trainer id on the raw assignment documents
(the course lookup happens only afterwards). The remaining stages join
the course, unwind submissions, keep those with a submittedAt, sort by
submittedAt descending, take 10, join the student user and project. -/
def recentSubmissionsPipeline (trainerId : Nat) (batchCourseIds : Option (List Nat))
    (s : Store) : List SubmissionView :=
  let stage1 : List AssignmentDoc :=
    match batchCourseIds with
    | some ids => s.assignments.filter (fun a => ids.contains a.course)
    | none => s.assignments.filter
        (fun a => dottedPathMatchesOid (assignmentToMVal a) "course" "instructor" trainerId)
  let withCourse : List (AssignmentDoc × CourseDoc) :=
    stage1.filterMap (fun a => (s.courses.find? (fun c => c.id == a.course)).map (fun c => (a, c)))
  let unwound : List SubRow :=
    withCourse.flatMap (fun p =>
      p.1.submissions.filterMap (fun sb =>
        sb.submittedAt.map (fun ts => { a := p.1, c := p.2, sb := sb, ts := ts })))
  let top : List SubRow := (sortByKeyDesc (fun row => row.ts) unwound).take 10
  let withStudent : List (SubRow × UserDoc) :=
    top.filterMap (fun row =>
      (s.users.find? (fun usr => usr.id == row.sb.student)).map (fun usr => (row, usr)))
  withStudent.map (fun q =>
    { assignmentId := q.1.a.id, courseId := q.1.c.id, studentId := q.1.sb.student,
      submittedAt := q.1.ts, status := q.1.sb.status })

/-- Upcoming-assignments query of GET /api/trainer/dashboard: assignments
of the selected courses with a due date not in the past, sorted by due
date ascending, limited to 5. -/
def upcomingAssignments (courseIds : List Nat) (now : Int) (s : Store) : List AssignmentDoc :=
  (sortByKeyDesc (fun a => -a.dueDate)
    (s.assignments.filter (fun a => courseIds.contains a.course && now ≤ a.dueDate))).take 5

/-- Superadmin principal used by the concrete deletion scenarios. -/
def cxSuper : UserDoc := { id := 0, role := .superadmin }

/-- Student user targeted by the concrete deletion scenarios. -/
def cxStudent : UserDoc := { id := 1, role := .student }

/-- Store for the cascading-deletion scenario: student user 1 appears in
a batch, a course, an assignment submission, an attendance record and a
Student profile. -/
def c1Store : Store :=
  { users := [cxSuper, cxStudent],
    students := [{ id := 100, user := 1 }],
    batches := [{ id := 10, students := [1] }],
    courses := [{ id := 20, students := [{ student := 1, progress := 50 }] }],
    assignments := [{ id := 30, course := 20, submissions := [{ student := 1 }] }],
    attendances := [{ id := 40, student := 1 }] }

/-- Admin principal for the self-deletion scenario. -/
def c2Admin : UserDoc := { id := 0, role := .admin }

/-- Store for the self-deletion scenario: only the admin account. -/
def c2Store : Store := { users := [c2Admin] }

/-- Trainer principal used to exercise self-deletion rejection. -/
def c2Witness : UserDoc := { id := 5, role := .trainer }

/-- Admin principal for the report-status scenario. -/
def c3Admin : UserDoc := { id := 3, role := .admin }

/-- Trainer principal assigned as faculty of student profile 100 in the
report-status scenario. -/
def c3Trainer : UserDoc := { id := 2, role := .trainer }

/-- Store for the report-status scenario: one draft report with one
history entry, owned by student profile 100. -/
def c3Store : Store :=
  { students := [{ id := 100, user := 7, assignedFaculty := some 2 }],
    reports := [{ id := 1, student := 100, createdBy := 5, status := .draft,
                  statusHistory := [{ status := .draft, changedBy := 5 }] }] }

/-- Trainer principal for the scope scenarios. -/
def c5Trainer : UserDoc := { id := 1, role := .trainer }

/-- Store for the scope scenarios: a batch and a course that belong to a
different trainer (id 2). -/
def c5Store : Store :=
  { batches := [{ id := 10, trainers := [2] }],
    courses := [{ id := 20, instructor := some 2 }] }

/-- Store for the dashboard scenario: trainer 1 instructs course 20 of
batch 10; its assignment 30 holds one submission by student 2. -/
def c7Store : Store :=
  { users := [{ id := 2, role := .student }],
    courses := [{ id := 20, batchId := 10, instructor := some 1 }],
    assignments := [{ id := 30, course := 20,
                      submissions := [{ student := 2, submittedAt := some 1000 }] }] }

/-- Faculty principal assigned to the commented student. -/
def c8User : UserDoc := { id := 3, role := .faculty }

/-- Store for the comment scenario: a submitted report of a student whose
profile is assigned to faculty 3. -/
def c8Store : Store :=
  { students := [{ id := 100, user := 7, assignedFaculty := some 3 }],
    reports := [{ id := 1, student := 100, createdBy := 7, status := .submitted,
                  statusHistory := [{ status := .submitted, changedBy := 7 }] }] }

/-- Batch of the CS24 scenario: 2024-01-01 to 2024-06-01 is 152 days,
13132800000 milliseconds. -/
def c9Batch : BatchDoc := { id := 0, startDate := 0, endDate := 13132800000 }

/-- Admin caller of the user-listing scenario. -/
def c10Admin : UserDoc := { id := 0, role := .admin }

/-- Superadmin account the listing scenario filters for. -/
def c10Super : UserDoc := { id := 9, role := .superadmin }

/-- Store for the user-listing scenario: one superadmin and one student
account. -/
def c10Store : Store := { users := [c10Super, { id := 4, role := .student }] }

/-- Helper: after erasing the first match from a list that holds at most
one match, no match remains. -/
theorem eraseFirstP_no_match (p : α → Bool) (l : List α)
    (h : (l.filter p).length ≤ 1) :
    ∀ x ∈ eraseFirstP p l, p x = false := by
  induction l with
  | nil => intro x hx; simp [eraseFirstP] at hx
  | cons a as ih =>
    intro x hx
    by_cases hpa : p a
    · rw [eraseFirstP, if_pos hpa] at hx
      have hlen : (as.filter p).length = 0 := by
        rw [List.filter_cons, if_pos hpa] at h
        simpa using h
      have hnil : as.filter p = [] := List.length_eq_zero.mp hlen
      by_contra hc
      have hpx : p x = true := by simpa using hc
      have hmem : x ∈ as.filter p := List.mem_filter.mpr ⟨hx, hpx⟩
      simp [hnil] at hmem
    · rw [eraseFirstP, if_neg hpa] at hx
      rcases List.mem_cons.mp hx with rfl | hx2
      · simpa using hpa
      · refine ih ?_ x hx2
        rw [List.filter_cons, if_neg hpa] at h
        exact h

/-- Helper: any username the retry loop returns was checked to be absent
from the store. -/
theorem usernameLoop_not_existing (existing : List String) (fn ln : String) :
    ∀ (sfx : List Nat) (n : Nat) (c : String),
      usernameLoop existing fn ln sfx n = some c → existing.contains c = false := by
  intro sfx
  induction sfx with
  | nil => intro n c h; simp [usernameLoop] at h
  | cons a rest ih =>
    intro n c h
    rw [usernameLoop] at h
    by_cases hn : n < 5
    · rw [if_pos hn] at h
      by_cases hc : existing.contains (usernameCandidate fn ln a)
      · rw [if_pos hc] at h
        exact ih (n + 1) c h
      · rw [if_neg hc] at h
        cases h
        simpa using hc
    · rw [if_neg hn] at h
      cases h

/-- C1 counterexample: deleting student user 1 through the admin
user-deletion handler succeeds, yet a full scan of the resulting store
still finds references to user 1 (in Course.students,
Assignment.submissions and Attendance), so the claimed zero-dangling
property fails at this input. -/
theorem c1_counterexample :
    (adminDeleteUser cxSuper 1 c1Store).1 = .ok ∧
    referencesUser (adminDeleteUser cxSuper 1 c1Store).2 1 = true := by decide

/-- C2 counterexample: the student-deletion handler performs no self
check, so admin 0 deleting user id 0 (their own account) succeeds and
mutates the store. -/
theorem c2_counterexample :
    (studentDeleteRoute c2Admin 0 c2Store).1 = .ok ∧
    ¬ (studentDeleteRoute c2Admin 0 c2Store).2 = c2Store := by decide

/-- C3 counterexample: an admin request moving a draft report directly
to approved is accepted by the status handler although the stated graph
forbids it, and the accepted update appends two statusHistory entries
(route push plus pre-save hook), not one. -/
theorem c3_counterexample :
    (patchStatusRoute c3Admin c3Store 1 .approved "").1 = .ok ∧
    allowedTransition .draft .approved = false ∧
    ((patchStatusRoute c3Admin c3Store 1 .approved "").2.reports.map
      (fun r => (r.status, r.statusHistory.length))) = [(.approved, 3)] := by decide

/-- C4: evaluation of every zero-denominator percentage path. The
attendance percentage, histogram percentage, per-student attendance
percentage, batch mean progress and the zero-course completion rate all
yield 0 on an empty total, as the claim states; but the batch overview
completion rate of a batch with zero students and at least one course is
the non-finite NaN (none), because the handler guards the division by
totalStudents with totalCourses > 0. -/
theorem c4_zero_denominator_eval :
    attendancePercentage [] = 0 ∧ histPercentage 0 0 = 0 ∧
    studentAttendancePercentage 0 0 = 0 ∧ batchAverageProgress [] = 0 ∧
    completionRate [] 0 = some 0 ∧ completionRate [] 1 = none := by decide

/-- C5 counterexample: trainer 1 is not assigned to batch 10 or course
20, yet the overview and course-assignments handlers answer with the
not-found outcome rather than forbidden (only the dashboard batch filter
answers forbidden). -/
theorem c5_counterexample :
    batchOverviewOutcome c5Trainer c5Store 10 = .notFound ∧
    ¬ batchOverviewOutcome c5Trainer c5Store 10 = .forbidden ∧
    courseAssignmentsOutcome c5Trainer c5Store 20 = .notFound := by decide

/-- C6 counterexample: when all five generated candidates collide with
the store, the provisioning handler aborts with the server-error
response and produces no username at all; the claimed fallback to a
random-suffixed identifier does not happen in this handler. -/
theorem c6_counterexample :
    provisionUsername ["alb100"] "al" "b" [100, 100, 100, 100, 100] =
      (.serverError, none) := by decide

/-- C7: evaluation of the recent-submissions aggregation at a store in
which trainer 1 instructs course 20 whose assignment has one submission.
Without a batch filter the first match stage compares the dotted path
course.instructor on the raw assignment documents, where course is a
plain object id, so the result is empty; the same pipeline restricted to
the course ids of the trainer returns the submission, showing the data
was present. -/
theorem c7_empty_submissions_eval :
    recentSubmissionsPipeline 1 none c7Store = [] ∧
    recentSubmissionsPipeline 1 (some [20]) c7Store =
      [{ assignmentId := 30, courseId := 20, studentId := 2, submittedAt := 1000,
         status := "submitted" }] := by decide

/-- C1 amended: a student deletion accepted by the admin user-deletion
handler pulls the student from every Batch.students set and deletes the
(unique) Student profile, but leaves the Course, Assignment and
Attendance collections completely unchanged, so the references there
survive the deletion. -/
theorem c1_amended (p u : UserDoc) (uid : Nat) (s : Store)
    (hp : p.role = .superadmin) (hne : uid ≠ p.id)
    (hfind : s.users.find? (fun x => x.id == uid) = some u)
    (hrole : u.role = .student)
    (huniq : (s.students.filter (fun st => st.user == u.id)).length ≤ 1) :
    (adminDeleteUser p uid s).1 = .ok ∧
    (∀ b ∈ (adminDeleteUser p uid s).2.batches, ¬ u.id ∈ b.students) ∧
    (∀ st ∈ (adminDeleteUser p uid s).2.students, st.user ≠ u.id) ∧
    (adminDeleteUser p uid s).2.courses = s.courses ∧
    (adminDeleteUser p uid s).2.assignments = s.assignments ∧
    (adminDeleteUser p uid s).2.attendances = s.attendances := by
  have hd : (Role.student = Role.superadmin) = False := by simp
  simp only [adminDeleteUser, hp, hne, hfind, hrole, hd, if_false]
  norm_num
  intro st hst
  have h := eraseFirstP_no_match (fun st => st.user == u.id) s.students huniq st hst
  simpa using h

/-- C1 witness: the amended theorem applied to the concrete cascading
deletion scenario. -/
theorem c1_amended_witness :
    (adminDeleteUser cxSuper 1 c1Store).1 = .ok ∧
    (adminDeleteUser cxSuper 1 c1Store).2.courses = c1Store.courses := by
  have h := c1_amended cxSuper cxStudent 1 c1Store (by decide) (by decide) (by decide)
    (by decide) (by decide)
  exact ⟨h.1, h.2.2.2.1⟩

/-- C2 amended: the two user-deletion handlers that check identity (the
admin user-management one and the super-admin one) reject a request of a
principal against the own account, whatever the role, and leave the
store untouched; the student-deletion handler rejects self deletion with
an unchanged store only for principals that are not admins, because it
performs no self check of its own. -/
theorem c2_amended (p : UserDoc) (s : Store) :
    (adminDeleteUser p p.id s).1 ≠ .ok ∧ (adminDeleteUser p p.id s).2 = s ∧
    (superAdminDeleteUser p p.id s).1 ≠ .ok ∧ (superAdminDeleteUser p p.id s).2 = s ∧
    (p.role ≠ .admin → (studentDeleteRoute p p.id s).1 ≠ .ok ∧
      (studentDeleteRoute p p.id s).2 = s) := by
  by_cases hp : p.role = Role.superadmin
  · refine ⟨?_, ?_, ?_, ?_, ?_⟩ <;>
      simp [adminDeleteUser, superAdminDeleteUser, studentDeleteRoute, hp]
  · refine ⟨?_, ?_, ?_, ?_, ?_⟩
    · simp [adminDeleteUser, hp]
    · simp [adminDeleteUser, hp]
    · simp [superAdminDeleteUser, hp]
    · simp [superAdminDeleteUser, hp]
    · intro hna
      constructor <;> simp [studentDeleteRoute, hna]

/-- C2 witness: the amended theorem applied to a trainer principal. -/
theorem c2_amended_witness :
    (adminDeleteUser c2Witness c2Witness.id c2Store).1 ≠ .ok ∧
    (studentDeleteRoute c2Witness c2Witness.id c2Store).2 = c2Store := by
  have h := c2_amended c2Witness c2Store
  exact ⟨h.1, (h.2.2.2.2 (by decide)).2⟩

/-- C3 amended: the status handler enforces no transition graph: any
requested status other than draft (the only value its validator bars) is
accepted from any current status once the actor is the assigned faculty
or an admin; the accepted update sets exactly the requested status and
appends two statusHistory entries when the status changes (the push of
the handler and the push of the pre-save hook) and one entry when the
requested status equals the current one, always preserving the existing
prefix of the log. -/
theorem c3_amended (u : UserDoc) (s : Store) (rid : Nat) (body : RStatus)
    (comment : String) (r : ReportDoc) (st : StudentDoc)
    (hbody : body ≠ .draft)
    (hr : findReport s rid = some r)
    (hst : findStudentDoc s r.student = some st)
    (hauth : st.assignedFaculty = some u.id ∨ u.role = .admin) :
    (patchStatusRoute u s rid body comment).1 = .ok ∧
    (∀ r2 ∈ (patchStatusRoute u s rid body comment).2.reports, r2.id = rid →
      r2.status = body ∧
      r2.statusHistory.length =
        r.statusHistory.length + (if body = r.status then 1 else 2) ∧
      r2.statusHistory.take r.statusHistory.length = r.statusHistory) := by
  have hb : patchableStatuses.contains body = true := by
    cases body <;> simp_all [patchableStatuses]
  have hcond : (!(st.assignedFaculty == some u.id) && !(u.role == Role.admin)) = false := by
    rcases hauth with h | h <;> simp [h]
  have hridr : r.id = rid := by
    have h1 := List.find?_some hr
    simpa using h1
  simp only [patchStatusRoute, hb, hr, hst, hcond, Bool.not_true, Bool.false_eq_true,
    if_false, Bool.false_and, Bool.and_false]
  refine ⟨trivial, ?_⟩
  intro r2 hmem hid
  simp only [replaceReport] at hmem
  rcases List.mem_map.mp hmem with ⟨r0, hr0, rfl⟩
  by_cases h0 : r0.id == rid
  · rw [if_pos h0]
    by_cases hbs : body = r.status
    · simp [reportSaveHook, hbs, List.take_left]
    · simp only [reportSaveHook]
      rw [if_pos (by simpa using hbs)]
      refine ⟨rfl, ?_, ?_⟩
      · simp [hbs]
      · change List.take r.statusHistory.length
            (r.statusHistory ++ [{ status := body, changedBy := u.id, comment := comment }] ++
              [{ status := body, changedBy := r.createdBy, comment := "" }]) = r.statusHistory
        rw [List.append_assoc]
        exact List.take_left _ _
  · rw [if_neg h0] at hid ⊢
    exact absurd hid (by simpa using h0)

/-- C3 witness: the amended theorem applied to an assigned trainer
moving the concrete draft report to submitted. -/
theorem c3_amended_witness :
    (patchStatusRoute c3Trainer c3Store 1 .submitted "ok").1 = .ok ∧
    ((patchStatusRoute c3Trainer c3Store 1 .submitted "ok").2.reports.getD 0
        { id := 0, student := 0, createdBy := 0 }).status = .submitted := by
  have h := c3_amended c3Trainer c3Store 1 .submitted "ok"
    { id := 1, student := 100, createdBy := 5, status := .draft,
      statusHistory := [{ status := .draft, changedBy := 5 }] }
    { id := 100, user := 7, assignedFaculty := some 2 }
    (by decide) (by decide) (by decide) (Or.inl (by decide))
  refine ⟨h.1, ?_⟩
  exact (h.2 ((patchStatusRoute c3Trainer c3Store 1 .submitted "ok").2.reports.getD 0
      { id := 0, student := 0, createdBy := 0 }) (by decide) (by decide)).1

/-- C5 amended: a trainer targeting a batch or course outside the
assigned set is always rejected, but with mixed outcomes: the overview
and course-assignments handlers answer not-found, only the dashboard
batch filter answers forbidden. -/
theorem c5_amended (u : UserDoc) (s : Store) (bid cid : Nat)
    (hrole : u.role = .trainer)
    (hb : ∀ b ∈ s.batches, b.id = bid → ¬ u.id ∈ b.trainers)
    (hc : ∀ c ∈ s.courses, c.id = cid → c.instructor ≠ some u.id) :
    batchOverviewOutcome u s bid = .notFound ∧
    trainerDashboardOutcome u s (some bid) = .forbidden ∧
    courseAssignmentsOutcome u s cid = .notFound := by
  have hfb : s.batches.find? (fun b => b.id == bid && decide (u.id ∈ b.trainers)) = none := by
    apply List.find?_eq_none.mpr
    intro b hbmem hp
    simp only [Bool.and_eq_true, beq_iff_eq, decide_eq_true_eq] at hp
    exact hb b hbmem hp.1 hp.2
  have hfc : s.courses.find? (fun c => c.id == cid && c.instructor == some u.id) = none := by
    apply List.find?_eq_none.mpr
    intro c hcmem hp
    simp only [Bool.and_eq_true, beq_iff_eq] at hp
    exact hc c hcmem hp.1 hp.2
  refine ⟨?_, ?_, ?_⟩ <;>
    simp [batchOverviewOutcome, trainerDashboardOutcome, courseAssignmentsOutcome,
      hrole, hfb, hfc]

/-- C5 witness: the amended theorem applied to the concrete out-of-scope
trainer scenario. -/
theorem c5_amended_witness :
    batchOverviewOutcome c5Trainer c5Store 10 = .notFound ∧
    trainerDashboardOutcome c5Trainer c5Store (some 10) = .forbidden := by
  have h := c5_amended c5Trainer c5Store 10 20 (by decide) (by decide) (by decide)
  exact ⟨h.1, h.2.1⟩

/-- C6 amended: the provisioning retry loop checks uniqueness against
the store, and when every one of the 5 attempts collides the handler
used by POST /api/admin/users aborts with a server error and no
username, while the fallback to a uuid-suffixed identifier lives only in
the generateUniqueUsername helper, which no handler calls. -/
theorem c6_amended (existing : List String) (fn ln : String) (sfx : List Nat)
    (uuid : String) :
    (∀ c, usernameLoop existing fn ln sfx 0 = some c → existing.contains c = false) ∧
    (usernameLoop existing fn ln sfx 0 = none →
      provisionUsername existing fn ln sfx = (.serverError, none) ∧
      generateUniqueUsername existing fn ln sfx uuid = "user_" ++ jsSubstrTo uuid 8) := by
  refine ⟨?_, ?_⟩
  · intro c h
    exact usernameLoop_not_existing existing fn ln sfx 0 c h
  · intro h
    constructor <;> simp [provisionUsername, generateUniqueUsername, h]

/-- C6 witness: the amended theorem applied to a run in which all five
draws collide. -/
theorem c6_amended_witness :
    provisionUsername ["alb100"] "al" "b" [100, 100, 100, 100, 100] = (.serverError, none) ∧
    generateUniqueUsername ["alb100"] "al" "b" [100, 100, 100, 100, 100] "deadbeefxyz"
      = "user_deadbeef" := by
  have h := (c6_amended ["alb100"] "al" "b" [100, 100, 100, 100, 100] "deadbeefxyz").2
    (by decide)
  refine ⟨h.1, ?_⟩
  rw [h.2]
  decide

/-- C8: a comment accepted by the comment handler advances a submitted
report to reviewed exactly when the commenter is not a student, and
leaves the status of a report in any other state unchanged. -/
theorem c8_comment_auto_advance (u : UserDoc) (s : Store) (rid : Nat) (text : String)
    (r : ReportDoc)
    (hr : findReport s rid = some r)
    (hok : (addCommentRoute u s rid text).1 = .ok) :
    ∀ r2 ∈ (addCommentRoute u s rid text).2.reports, r2.id = rid →
      r2.status = (if r.status = .submitted ∧ u.role ≠ .student then .reviewed
        else r.status) := by
  by_cases ht : text == ""
  · simp [addCommentRoute, ht] at hok
  · rcases hstM : findStudentDoc s r.student with _ | st
    · simp [addCommentRoute, ht, hr, hstM] at hok
    · by_cases hcond : (!(st.assignedFaculty == some u.id) && !(u.role == Role.admin)) = true
      · simp [addCommentRoute, ht, hr, hstM, hcond] at hok
      · have hcf : (!(st.assignedFaculty == some u.id) && !(u.role == Role.admin)) = false := by
          simpa using hcond
        simp only [addCommentRoute, ht, hr, hstM, hcf, Bool.false_eq_true, if_false]
        intro r2 hmem hid
        simp only [replaceReport] at hmem
        rcases List.mem_map.mp hmem with ⟨r0, hr0, rfl⟩
        by_cases h0 : r0.id == rid
        · rw [if_pos h0]
          by_cases hsub : r.status = RStatus.submitted <;>
            by_cases hstu : u.role = Role.student <;>
              simp [reportSaveHook, hsub, hstu]
        · rw [if_neg h0] at hid ⊢
          exact absurd hid (by simpa using h0)

/-- C8 witness: a comment of the assigned faculty on the concrete
submitted report advances it to reviewed. -/
theorem c8_comment_auto_advance_witness :
    ((addCommentRoute c8User c8Store 1 "good").2.reports.getD 0
        { id := 0, student := 0, createdBy := 0 }).status = .reviewed := by
  have h := c8_comment_auto_advance c8User c8Store 1 "good"
    { id := 1, student := 100, createdBy := 7, status := .submitted,
      statusHistory := [{ status := .submitted, changedBy := 7 }] }
    (by decide) (by decide)
    ((addCommentRoute c8User c8Store 1 "good").2.reports.getD 0
      { id := 0, student := 0, createdBy := 0 }) (by decide) (by decide)
  simpa using h

/-- C9: for a batch that satisfies the schema validator the
durationWeeks virtual coincides with ceil((endDate - startDate) / one
week), the formula of the super-admin aggregation and of the
specification; and any batch with endDate not after startDate fails the
endDate validator, so it is never persisted. -/
theorem c9_duration_weeks (b : BatchDoc) :
    (b.startDate ≤ b.endDate → durationWeeks b = durationWeeksAgg b) ∧
    (b.endDate ≤ b.startDate → endDateValid b = false) := by
  constructor
  · intro h
    unfold durationWeeks durationWeeksAgg
    have h0 : (0 : Int) ≤ b.endDate - b.startDate := by omega
    have hcast : (((b.endDate - b.startDate).natAbs : Nat) : Rat)
        = ((b.endDate - b.startDate : Int) : Rat) := by
      rw [Int.cast_natAbs]
      exact_mod_cast abs_of_nonneg h0
    rw [hcast]
  · intro h
    simp only [endDateValid, decide_eq_false_iff_not]
    omega

/-- C9 witness: the CS24 scenario batch (152 days) has 22 duration
weeks under both formulas. -/
theorem c9_duration_weeks_witness :
    durationWeeks c9Batch = durationWeeksAgg c9Batch ∧ durationWeeksAgg c9Batch = 22 := by
  refine ⟨(c9_duration_weeks c9Batch).1 (by decide), ?_⟩
  unfold durationWeeksAgg c9Batch weekMs
  norm_num
  rw [Int.ceil_eq_iff]
  constructor <;> norm_num

/-- C10: the admin user listing excludes superadmin accounts only under
the default filter; a supplied role query replaces the exclusion
entirely, so the query role superadmin makes the listing return exactly
the superadmin accounts to an admin caller. -/
theorem c10_role_filter (caller : UserDoc) (s : Store)
    (hc : caller.role = .admin) :
    (getUsersRoute caller (some .superadmin) none s).2
      = s.users.filter (fun u => u.role == .superadmin) ∧
    (getUsersRoute caller none none s).2
      = s.users.filter (fun u => !(u.role == .superadmin)) := by
  constructor <;>
    · simp only [getUsersRoute, hc, buildUserFilter]
      norm_num
      apply List.filter_congr
      intro x hx
      simp [userFilterMatches]

/-- C10 witness: the listing with the superadmin role query returns the
concrete superadmin account. -/
theorem c10_role_filter_witness :
    (getUsersRoute c10Admin (some .superadmin) none c10Store).2 = [c10Super] := by
  rw [(c10_role_filter c10Admin c10Store (by decide)).1]
  decide
